import Mathlib

/-
Verification development for `call_screen_openai_tts.py`, a prototype
call-screening pipeline.  The Python source is shallowly embedded below:
pure functions become Lean functions, the JSON decoding step
(`json.loads`) is embedded as an executable recursive-descent decoder
`jsonParse`, Python values flowing out of the decoder are the inductive
type `PyVal`, and the attribute error raised by `result.get` on a
non-dict value is an `Except.error`.  External network effects (the two
OpenAI calls) are inputs to / outputs of the embedded functions.
-/

/-- Embedding of the Python values that `json.loads` can produce:
`None`, `bool`, `int`, `float`, `str`, `list`, `dict`.  Non-integral
numbers are kept as their lexeme (their floating-point value is never
inspected by the program). -/
inductive PyVal where
  | null
  | bool (b : Bool)
  | int (n : Int)
  | float (lexeme : String)
  | str (s : String)
  | list (items : List PyVal)
  | dict (entries : List (String × PyVal))

/-- JSON whitespace skipping (space, tab, newline, carriage return),
as in Python's strict `json.loads`. -/
def skipWs : List Char → List Char
  | [] => []
  | c :: cs =>
    if c = ' ' ∨ c = '\t' ∨ c = '\n' ∨ c = '\r' then skipWs cs else c :: cs

/-- Value of a hexadecimal digit, if any. -/
def hexDigitVal (c : Char) : Option Nat :=
  if '0' ≤ c ∧ c ≤ '9' then some (c.toNat - '0'.toNat)
  else if 'a' ≤ c ∧ c ≤ 'f' then some (c.toNat - 'a'.toNat + 10)
  else if 'A' ≤ c ∧ c ≤ 'F' then some (c.toNat - 'A'.toNat + 10)
  else none

/-- Decode one escape sequence after a backslash inside a JSON string.
Unicode escapes are mapped through `Char.ofNat` (surrogate-pair
recombination is not modelled; no claim depends on it). -/
def escStep : List Char → Option (Char × List Char)
  | [] => none
  | e :: cs =>
    if e = '"' then some ('"', cs)
    else if e = '\\' then some ('\\', cs)
    else if e = '/' then some ('/', cs)
    else if e = 'b' then some ('\x08', cs)
    else if e = 'f' then some ('\x0c', cs)
    else if e = 'n' then some ('\n', cs)
    else if e = 'r' then some ('\r', cs)
    else if e = 't' then some ('\t', cs)
    else if e = 'u' then
      match cs with
      | h1 :: h2 :: h3 :: h4 :: cs2 =>
        match hexDigitVal h1, hexDigitVal h2, hexDigitVal h3, hexDigitVal h4 with
        | some a, some b, some c, some d =>
          some (Char.ofNat (((a * 16 + b) * 16 + c) * 16 + d), cs2)
        | _, _, _, _ => none
      | _ => none
    else none

/-- Parse the body of a JSON string after the opening quote, returning
the decoded characters and the input remaining after the closing quote.
Raw control characters are rejected, as in strict `json.loads`. -/
def parseStrBody : Nat → List Char → Option (List Char × List Char)
  | 0, _ => none
  | _, [] => none
  | fuel + 1, c :: cs =>
    if c = '"' then some ([], cs)
    else if c = '\\' then
      match escStep cs with
      | some (ch, rest1) =>
        match parseStrBody fuel rest1 with
        | some (body, rest) => some (ch :: body, rest)
        | none => none
      | none => none
    else if c.toNat < 32 then none
    else
      match parseStrBody fuel cs with
      | some (body, rest) => some (c :: body, rest)
      | none => none

/-- Split a leading run of decimal digits from the input. -/
def takeDigits : List Char → List Char × List Char
  | [] => ([], [])
  | c :: cs =>
    if c.isDigit then
      let p := takeDigits cs
      (c :: p.1, p.2)
    else ([], c :: cs)

/-- Decimal value of a digit string. -/
def digitsToNat (ds : List Char) : Nat :=
  ds.foldl (fun acc c => acc * 10 + (c.toNat - '0'.toNat)) 0

/-- Parse an optional JSON fraction part, returning its lexeme (with the
dot) and the rest; `some ([], _)` when absent. -/
def parseFracPart : List Char → Option (List Char × List Char)
  | '.' :: r =>
    let p := takeDigits r
    if p.1.isEmpty then none else some ('.' :: p.1, p.2)
  | cs => some ([], cs)

/-- Parse an optional JSON exponent part, returning its lexeme and the
rest; `some ([], _)` when absent. -/
def parseExpPart : List Char → Option (List Char × List Char)
  | [] => some ([], [])
  | c :: r =>
    if c = 'e' ∨ c = 'E' then
      match r with
      | [] => none
      | s :: r2 =>
        if s = '+' ∨ s = '-' then
          let p := takeDigits r2
          if p.1.isEmpty then none else some (c :: s :: p.1, p.2)
        else
          let p := takeDigits r
          if p.1.isEmpty then none else some (c :: p.1, p.2)
    else some ([], c :: r)

/-- Parse a JSON number.  Integer lexemes become Python `int`s, lexemes
with a fraction or exponent become Python `float`s (kept as text). -/
def parseNum (cs : List Char) : Option (PyVal × List Char) :=
  let sp : List Char × List Char :=
    match cs with
    | '-' :: rest => ([ '-' ], rest)
    | _ => ([], cs)
  let dp := takeDigits sp.2
  if dp.1.isEmpty then none
  else if 1 < dp.1.length ∧ dp.1.head? = some '0' then none
  else
    match parseFracPart dp.2 with
    | none => none
    | some (frac, cs3) =>
      match parseExpPart cs3 with
      | none => none
      | some (ex, cs4) =>
        if frac.isEmpty ∧ ex.isEmpty then
          let n : Int := Int.ofNat (digitsToNat dp.1)
          some (PyVal.int (if sp.1.isEmpty then n else -n), cs4)
        else
          some (PyVal.float (String.mk (sp.1 ++ dp.1 ++ frac ++ ex)), cs4)

/-- Consume an expected literal tail (for `true`, `false`, `null`, and
Python's accepted `NaN` / `Infinity`). -/
def stripLit : List Char → List Char → Option (List Char)
  | [], cs => some cs
  | _ :: _, [] => none
  | l :: ls, c :: cs => if c = l then stripLit ls cs else none

mutual

/-- Parse one JSON value (fuelled; the fuel is an upper bound on nesting
and is chosen large enough at the top level in `jsonParse`). -/
def parseValue : Nat → List Char → Option (PyVal × List Char)
  | 0, _ => none
  | fuel + 1, cs =>
    match skipWs cs with
    | [] => none
    | c :: rest =>
      if c = '"' then
        match parseStrBody (rest.length + 1) rest with
        | some (body, rest2) => some (PyVal.str (String.mk body), rest2)
        | none => none
      else if c = '[' then
        match skipWs rest with
        | ']' :: rest2 => some (PyVal.list [], rest2)
        | cs2 =>
          match parseItems fuel cs2 with
          | some (items, rest2) => some (PyVal.list items, rest2)
          | none => none
      else if c = '\x7b' then
        match skipWs rest with
        | '\x7d' :: rest2 => some (PyVal.dict [], rest2)
        | cs2 =>
          match parseMembers fuel cs2 with
          | some (ms, rest2) => some (PyVal.dict ms, rest2)
          | none => none
      else if c = 't' then
        match stripLit [ 'r', 'u', 'e' ] rest with
        | some rest2 => some (PyVal.bool true, rest2)
        | none => none
      else if c = 'f' then
        match stripLit [ 'a', 'l', 's', 'e' ] rest with
        | some rest2 => some (PyVal.bool false, rest2)
        | none => none
      else if c = 'n' then
        match stripLit [ 'u', 'l', 'l' ] rest with
        | some rest2 => some (PyVal.null, rest2)
        | none => none
      else if c = 'N' then
        match stripLit [ 'a', 'N' ] rest with
        | some rest2 => some (PyVal.float "nan", rest2)
        | none => none
      else if c = 'I' then
        match stripLit [ 'n', 'f', 'i', 'n', 'i', 't', 'y' ] rest with
        | some rest2 => some (PyVal.float "inf", rest2)
        | none => none
      else if c = '-' then
        match stripLit [ 'I', 'n', 'f', 'i', 'n', 'i', 't', 'y' ] rest with
        | some rest2 => some (PyVal.float "-inf", rest2)
        | none => parseNum (c :: rest)
      else if c.isDigit then parseNum (c :: rest)
      else none

/-- Parse the comma-separated items of a non-empty JSON array, up to and
including the closing bracket. -/
def parseItems : Nat → List Char → Option (List PyVal × List Char)
  | 0, _ => none
  | fuel + 1, cs =>
    match parseValue fuel cs with
    | none => none
    | some (v, rest) =>
      match skipWs rest with
      | ',' :: rest2 =>
        match parseItems fuel rest2 with
        | some (vs, rest3) => some (v :: vs, rest3)
        | none => none
      | ']' :: rest2 => some ([v], rest2)
      | _ => none

/-- Parse the comma-separated members of a non-empty JSON object, up to
and including the closing brace. -/
def parseMembers : Nat → List Char → Option (List (String × PyVal) × List Char)
  | 0, _ => none
  | fuel + 1, cs =>
    match skipWs cs with
    | '"' :: rest =>
      match parseStrBody (rest.length + 1) rest with
      | none => none
      | some (keyChars, rest2) =>
        match skipWs rest2 with
        | ':' :: rest3 =>
          match parseValue fuel rest3 with
          | none => none
          | some (v, rest4) =>
            match skipWs rest4 with
            | ',' :: rest5 =>
              match parseMembers fuel rest5 with
              | some (ms, rest6) => some ((String.mk keyChars, v) :: ms, rest6)
              | none => none
            | '\x7d' :: rest5 => some ([(String.mk keyChars, v)], rest5)
            | _ => none
        | _ => none
    | _ => none

end

/-- Embedding of Python's `json.loads`: decode one JSON document with
only trailing whitespace allowed; `none` is the `json.JSONDecodeError`
case. -/
def jsonParse (s : String) : Option PyVal :=
  match parseValue (2 * s.data.length + 2) s.data with
  | some (v, rest) => if (skipWs rest).isEmpty then some v else none
  | none => none

/-- First entry of the security-rules catalog. -/
def securityRule1 : String :=
  "The user is a 79-year-old man. Treat all unexpected calls with extra caution."

/-- Second entry (two adjacent Python string literals, joined as Python
joins them). -/
def securityRule2 : String :=
  "If the caller mentions job sites such as Indeed or LinkedIn, treat this as suspicious unless there is strong evidence that the user is actively expecting that call."

/-- Third entry (two adjacent Python string literals, joined). -/
def securityRule3 : String :=
  "If the caller asks for bank account details, credit/debit card numbers, PINs, one-time codes, or passwords, classify the call as HIGH RISK."

/-- Fourth entry. -/
def securityRule4 : String :=
  "If the caller pressures the user with urgency (e.g., \x27act now\x27, \x27you will be arrested\x27, \x27your account will be closed today\x27), this is a strong scam indicator."

/-- Fifth entry. -/
def securityRule5 : String :=
  "If the caller asks the user to install remote access software, classify as HIGH RISK."

/-- Sixth entry (two adjacent Python string literals, joined). -/
def securityRule6 : String :=
  "If the caller claims to be from a government body, bank, or tech company but cannot provide clear verifiable information, treat as suspicious."

/-- The static security-rules catalog `SECURITY_RULES` from the source,
in source order. -/
def SECURITY_RULES : List String :=
  [securityRule1, securityRule2, securityRule3, securityRule4, securityRule5, securityRule6]

/-- The `CallContext` dataclass: caller id (optional), call type, user
age, with the source's defaults. -/
structure CallContext where
  caller_id : Option String := none
  call_type : String := "incoming"
  user_age : Int := 79
deriving DecidableEq

/-- Python's `x or default` applied to an `Optional[str]`: both `None`
and the empty string are falsy and yield the default. -/
def pyOrStr : Option String → String → String
  | none, d => d
  | some s, d => if s = "" then d else s

/-- Literal prompt text before the interpolated `context.user_age`. -/
def promptSeg1 : String :=
  "\nYou are screening a phone call for an elderly user.\n\nUser profile:\n- Age: "

/-- Literal prompt text between `context.user_age` and the caller id. -/
def promptSeg2 : String :=
  " years old\n- Name: Micheal\n\nCall context:\n- Caller ID: "

/-- Literal prompt text between the caller id and `context.call_type`. -/
def promptSeg3 : String := "\n- Call type: "

/-- Literal prompt text between `context.call_type` and `rules_text`. -/
def promptSeg4 : String := "\n\nSecurity rules you MUST follow:\n"

/-- Literal prompt text between `rules_text` and the transcript. -/
def promptSeg5 : String :=
  "\n\nBelow is the transcript of what the CALLER has said so far.\nTreat this as if you are listening to a live phone call.\n\nCALLER TRANSCRIPT:\n\"\"\""

/-- Literal prompt text after the transcript. -/
def promptSeg6 : String :=
  "\"\"\"\n\nYour tasks:\n1. Classify the call as one of: \"safe\", \"suspicious\", or \"likely_scam\".\n2. Briefly explain the main reasons for your classification.\n3. List any specific red flags you noticed (if any).\n4. Decide what to do next for the user. Choose one:\n   - \"block_call\"\n   - \"warn_and_block\"\n   - \"allow_through\"\n   - \"ask_more_questions\"\n5. Write a short, polite sentence that could be spoken back to the caller by a TTS\n   system (e.g., \"We cannot proceed with this call. Goodbye.\").\n\nRespond in **JSON only** with the following keys:\n- classification\n- reasoning\n- red_flags\n- action_for_user\n- spoken_response_to_caller\n"

/-- The local `rules_text` of `build_ai_input`: the catalog rendered as
a bulleted list. -/
def rulesText : String :=
  String.intercalate "\n" (SECURITY_RULES.map (fun rule => "- " ++ rule))

/-- Embedding of `build_ai_input`: the Python f-string is the
concatenation of its literal segments and interpolated expressions. -/
def build_ai_input (mock_call_text : String) (context : CallContext) : String :=
  promptSeg1 ++ toString context.user_age ++ promptSeg2
    ++ pyOrStr context.caller_id "Unknown" ++ promptSeg3 ++ context.call_type
    ++ promptSeg4 ++ rulesText ++ promptSeg5 ++ mock_call_text ++ promptSeg6

set_option linter.unusedVariables false in
/-- Embedding of `speak_with_openai` restricted to its observable result
for this development: the audio is written to, and the function returns,
`Path(__file__).parent / filename`.  The directory holding the script is
a parameter; path joining is string concatenation with a separator.  The
synthesized `text` does not influence the path. -/
def speak_with_openai (script_dir : String) (text : String)
    (filename : String := "call_response.mp3") : String :=
  script_dir ++ "/" ++ filename

/-- One external playback invocation of `play_audio`: either
`subprocess.run(args, check=False)` or `os.startfile(path)`. -/
inductive PlaybackAction where
  | run (args : List String)
  | startfile (path : String)
deriving DecidableEq

/-- Embedding of `play_audio`: dispatch on `platform.system()` (an input
here) to exactly one playback invocation. -/
def play_audio (system : String) (audio_path : String) : PlaybackAction :=
  if system = "Darwin" then PlaybackAction.run ["afplay", audio_path]
  else if system = "Windows" then PlaybackAction.startfile audio_path
  else PlaybackAction.run ["xdg-open", audio_path]

/-- The key extracted from the classification result. -/
def spokenKey : String := "spoken_response_to_caller"

/-- The fixed fallback spoken line. -/
def fallbackLine : String := "We cannot proceed with this call. Goodbye."

/-- Last binding of a key in a decoded JSON object: `json.loads` builds
a Python dict in which a repeated key keeps its last value. -/
def lookupLast (key : String) : List (String × PyVal) → Option PyVal
  | [] => none
  | (k, v) :: rest =>
    match lookupLast key rest with
    | some w => some w
    | none => if k = key then some v else none

/-- Python's `result.get(key, default)`: defined only on dicts; on any
other value the attribute access `.get` raises `AttributeError`. -/
def pyGet (v : PyVal) (key : String) (default : PyVal) : Except String PyVal :=
  match v with
  | PyVal.dict kvs => Except.ok ((lookupLast key kvs).getD default)
  | _ => Except.error "AttributeError"

/-- The `try/except` parse step of `screen_mock_call`: `json.loads` on
success, otherwise the fallback one-field dict. -/
def parseResponse (ai_response_text : String) : PyVal :=
  match jsonParse ai_response_text with
  | some v => v
  | none => PyVal.dict [(spokenKey, PyVal.str fallbackLine)]

/-- The spoken line `screen_mock_call` passes to speech synthesis:
`result.get("spoken_response_to_caller", fallback)` applied to the
parse step's result. -/
def extractSpokenLine (ai_response_text : String) : Except String PyVal :=
  pyGet (parseResponse ai_response_text) spokenKey (PyVal.str fallbackLine)

/-- Observable intermediate values of one `screen_mock_call` run, up to
the speech-synthesis call (which consumes `spoken_line` when it is not
an error). -/
structure ScreenOutcome where
  context : CallContext
  prompt : String
  result : PyVal
  spoken_line : Except String PyVal

/-- Embedding of `screen_mock_call`: context construction, prompt
construction, the classification call (whose reply `ai_response_text`
is an input here), the parse step, and spoken-line extraction. -/
def screen_mock_call (mock_call_text : String) (caller_id : Option String)
    (call_type : String) (ai_response_text : String) : ScreenOutcome :=
  let context : CallContext := { caller_id := caller_id, call_type := call_type }
  let prompt := build_ai_input mock_call_text context
  let result := parseResponse ai_response_text
  { context := context, prompt := prompt, result := result,
    spoken_line := pyGet result spokenKey (PyVal.str fallbackLine) }

set_option maxRecDepth 8000 in
/-- The bulleted rules list equals the explicit concatenation of its six
entries separated by newline-dash separators. -/
theorem rulesText_split : rulesText =
    "- " ++ securityRule1 ++ "\n- " ++ securityRule2 ++ "\n- " ++ securityRule3
      ++ "\n- " ++ securityRule4 ++ "\n- " ++ securityRule5 ++ "\n- " ++ securityRule6 := by
  decide

/-- Every catalog entry occurs verbatim inside the bulleted rules list. -/
theorem rules_in_rulesText : ∀ r ∈ SECURITY_RULES, r.data <:+: rulesText.data := by
  intro r hr
  rw [rulesText_split]
  simp only [SECURITY_RULES, List.mem_cons, List.not_mem_nil, or_false] at hr
  rcases hr with rfl | rfl | rfl | rfl | rfl | rfl
  · exact ⟨("- " : String).data,
      ("\n- " ++ securityRule2 ++ "\n- " ++ securityRule3 ++ "\n- " ++ securityRule4
        ++ "\n- " ++ securityRule5 ++ "\n- " ++ securityRule6).data,
      by simp [String.data_append]⟩
  · exact ⟨("- " ++ securityRule1 ++ "\n- ").data,
      ("\n- " ++ securityRule3 ++ "\n- " ++ securityRule4
        ++ "\n- " ++ securityRule5 ++ "\n- " ++ securityRule6).data,
      by simp [String.data_append]⟩
  · exact ⟨("- " ++ securityRule1 ++ "\n- " ++ securityRule2 ++ "\n- ").data,
      ("\n- " ++ securityRule4 ++ "\n- " ++ securityRule5 ++ "\n- " ++ securityRule6).data,
      by simp [String.data_append]⟩
  · exact ⟨("- " ++ securityRule1 ++ "\n- " ++ securityRule2 ++ "\n- " ++ securityRule3
        ++ "\n- ").data,
      ("\n- " ++ securityRule5 ++ "\n- " ++ securityRule6).data,
      by simp [String.data_append]⟩
  · exact ⟨("- " ++ securityRule1 ++ "\n- " ++ securityRule2 ++ "\n- " ++ securityRule3
        ++ "\n- " ++ securityRule4 ++ "\n- ").data,
      ("\n- " ++ securityRule6).data,
      by simp [String.data_append]⟩
  · exact ⟨("- " ++ securityRule1 ++ "\n- " ++ securityRule2 ++ "\n- " ++ securityRule3
        ++ "\n- " ++ securityRule4 ++ "\n- " ++ securityRule5 ++ "\n- ").data,
      ([] : List Char),
      by simp [String.data_append]⟩

/-- The transcript occurs verbatim in the prompt. -/
theorem transcript_infix_prompt (t : String) (ctx : CallContext) :
    t.data <:+: (build_ai_input t ctx).data :=
  ⟨(promptSeg1 ++ toString ctx.user_age ++ promptSeg2 ++ pyOrStr ctx.caller_id "Unknown"
      ++ promptSeg3 ++ ctx.call_type ++ promptSeg4 ++ rulesText ++ promptSeg5).data,
   promptSeg6.data, by simp [build_ai_input, String.data_append]⟩

/-- The bulleted rules list occurs verbatim in the prompt. -/
theorem rulesText_infix_prompt (t : String) (ctx : CallContext) :
    rulesText.data <:+: (build_ai_input t ctx).data :=
  ⟨(promptSeg1 ++ toString ctx.user_age ++ promptSeg2 ++ pyOrStr ctx.caller_id "Unknown"
      ++ promptSeg3 ++ ctx.call_type ++ promptSeg4).data,
   (promptSeg5 ++ t ++ promptSeg6).data, by simp [build_ai_input, String.data_append]⟩

/-- When the interpolated caller id renders as `Unknown`, the prompt
shows the Caller ID field as `Unknown`. -/
theorem caller_unknown_infix (t : String) (ctx : CallContext)
    (hd : pyOrStr ctx.caller_id "Unknown" = "Unknown") :
    ("- Caller ID: Unknown\n- Call type: ").data <:+: (build_ai_input t ctx).data := by
  have hseg2 : promptSeg2
      = " years old\n- Name: Micheal\n\nCall context:\n" ++ "- Caller ID: " := by decide
  have htgt : ("- Caller ID: Unknown\n- Call type: " : String)
      = "- Caller ID: " ++ "Unknown" ++ promptSeg3 := by decide
  refine ⟨(promptSeg1 ++ toString ctx.user_age
      ++ " years old\n- Name: Micheal\n\nCall context:\n").data,
    (ctx.call_type ++ promptSeg4 ++ rulesText ++ promptSeg5 ++ t ++ promptSeg6).data, ?_⟩
  rw [htgt]
  simp [build_ai_input, hd, hseg2, String.data_append]

/-- C1: for every input text that is not valid JSON, the parse step does
not raise: it produces a result dict whose only entry is the spoken
response set to the fixed fallback string, and spoken-line extraction
then yields that fallback. -/
theorem parse_failure_gives_fallback (s : String) (h : jsonParse s = none) :
    parseResponse s = PyVal.dict [(spokenKey, PyVal.str fallbackLine)] ∧
    extractSpokenLine s = Except.ok (PyVal.str fallbackLine) := by
  have hp : parseResponse s = PyVal.dict [(spokenKey, PyVal.str fallbackLine)] := by
    simp [parseResponse, h]
  exact ⟨hp, by simp [extractSpokenLine, hp, pyGet, lookupLast]⟩

/-- Witness for C1 at the literal input `not json`. -/
theorem parse_failure_gives_fallback_witness :
    parseResponse "not json" = PyVal.dict [(spokenKey, PyVal.str fallbackLine)] ∧
    extractSpokenLine "not json" = Except.ok (PyVal.str fallbackLine) :=
  parse_failure_gives_fallback "not json" rfl

/-- C2: for every transcript and context, the prompt contains the
transcript verbatim and every catalog rule verbatim. -/
theorem prompt_contains_transcript_and_rules (t : String) (ctx : CallContext) :
    t.data <:+: (build_ai_input t ctx).data ∧
    ∀ r ∈ SECURITY_RULES, r.data <:+: (build_ai_input t ctx).data :=
  ⟨transcript_infix_prompt t ctx,
   fun r hr => (rules_in_rulesText r hr).trans (rulesText_infix_prompt t ctx)⟩

/-- Witness for C2 at a concrete transcript, context and rule. -/
theorem prompt_contains_transcript_and_rules_witness :
    ("Hello, this is your bank, please confirm your PIN" : String).data
      <:+: (build_ai_input "Hello, this is your bank, please confirm your PIN"
              { caller_id := some "+353 83 123 4567" }).data ∧
    securityRule1.data
      <:+: (build_ai_input "Hello, this is your bank, please confirm your PIN"
              { caller_id := some "+353 83 123 4567" }).data :=
  ⟨(prompt_contains_transcript_and_rules _ _).1,
   (prompt_contains_transcript_and_rules _ _).2 securityRule1 (by simp [SECURITY_RULES])⟩

/-- C3: for every classification output that decodes to a JSON object
containing the spoken-response key, the spoken line handed to speech
synthesis is exactly the value stored under that key. -/
theorem spoken_response_returned_unchanged (t : String) (cid : Option String)
    (ct s : String) (kvs : List (String × PyVal)) (v : PyVal)
    (hparse : jsonParse s = some (PyVal.dict kvs))
    (hkey : lookupLast spokenKey kvs = some v) :
    (screen_mock_call t cid ct s).spoken_line = Except.ok v := by
  simp [screen_mock_call, parseResponse, hparse, pyGet, hkey]

/-- Witness for C3 at a concrete JSON object. -/
theorem spoken_response_returned_unchanged_witness :
    (screen_mock_call "transcript" (some "+353 83 123 4567") "incoming"
        "\x7b\"spoken_response_to_caller\": \"Hello.\"\x7d").spoken_line
      = Except.ok (PyVal.str "Hello.") :=
  spoken_response_returned_unchanged _ _ _ _
    [("spoken_response_to_caller", PyVal.str "Hello.")] _ rfl rfl

/-- C4 counterexample: `[1, 2]` is well-formed JSON lacking the
spoken-response key, yet extraction raises `AttributeError` (Python has
no `.get` on a list) instead of selecting the fallback string. -/
theorem nonobject_json_extraction_raises :
    jsonParse "[1, 2]" = some (PyVal.list [PyVal.int 1, PyVal.int 2]) ∧
    extractSpokenLine "[1, 2]" = Except.error "AttributeError" ∧
    extractSpokenLine "[1, 2]" ≠ Except.ok (PyVal.str fallbackLine) := by
  refine ⟨rfl, rfl, ?_⟩
  intro h
  rw [show extractSpokenLine "[1, 2]" = Except.error "AttributeError" from rfl] at h
  exact Except.noConfusion h

/-- C4 (amended): for every classification output that decodes to a JSON
object lacking the spoken-response key, extraction selects the fixed
fallback string without raising. -/
theorem missing_key_object_gives_fallback (s : String) (kvs : List (String × PyVal))
    (hparse : jsonParse s = some (PyVal.dict kvs))
    (hkey : lookupLast spokenKey kvs = none) :
    extractSpokenLine s = Except.ok (PyVal.str fallbackLine) := by
  simp [extractSpokenLine, parseResponse, hparse, pyGet, hkey]

/-- Witness for the amended C4 at a concrete object without the key. -/
theorem missing_key_object_gives_fallback_witness :
    extractSpokenLine "\x7b\"classification\": \"safe\"\x7d"
      = Except.ok (PyVal.str fallbackLine) :=
  missing_key_object_gives_fallback _ [("classification", PyVal.str "safe")] rfl rfl

/-- C5: playback dispatch takes exactly the designated invocation for
each OS identity — `afplay` for Darwin, `os.startfile` for Windows,
`xdg-open` otherwise — and the three invocations are pairwise
distinct. -/
theorem play_audio_dispatch (system audio_path : String) :
    (system = "Darwin" →
      play_audio system audio_path = PlaybackAction.run ["afplay", audio_path]) ∧
    (system = "Windows" →
      play_audio system audio_path = PlaybackAction.startfile audio_path) ∧
    (system ≠ "Darwin" → system ≠ "Windows" →
      play_audio system audio_path = PlaybackAction.run ["xdg-open", audio_path]) ∧
    PlaybackAction.run ["afplay", audio_path] ≠ PlaybackAction.startfile audio_path ∧
    PlaybackAction.run ["afplay", audio_path] ≠ PlaybackAction.run ["xdg-open", audio_path] ∧
    PlaybackAction.startfile audio_path ≠ PlaybackAction.run ["xdg-open", audio_path] := by
  refine ⟨?_, ?_, ?_, ?_, ?_, ?_⟩
  · intro h; subst h; unfold play_audio; rw [if_pos rfl]
  · intro h; subst h; unfold play_audio; rw [if_neg (by decide), if_pos rfl]
  · intro h1 h2; unfold play_audio; rw [if_neg h1, if_neg h2]
  · intro h; exact PlaybackAction.noConfusion h
  · intro h
    injection h with hargs
    injection hargs with hhd _
    exact absurd hhd (by decide)
  · intro h; exact PlaybackAction.noConfusion h

/-- Witness for C5 at the three identities. -/
theorem play_audio_dispatch_witness :
    play_audio "Darwin" "f.mp3" = PlaybackAction.run ["afplay", "f.mp3"] ∧
    play_audio "Windows" "f.mp3" = PlaybackAction.startfile "f.mp3" ∧
    play_audio "Linux" "f.mp3" = PlaybackAction.run ["xdg-open", "f.mp3"] :=
  ⟨(play_audio_dispatch "Darwin" "f.mp3").1 rfl,
   (play_audio_dispatch "Windows" "f.mp3").2.1 rfl,
   (play_audio_dispatch "Linux" "f.mp3").2.2.1 (by decide) (by decide)⟩

/-- C6: the prompt builder is deterministic and total — equal inputs
give equal outputs, and every transcript (empty or containing the
prompt's own delimiters) is embedded verbatim in a defined result. -/
theorem build_ai_input_deterministic_total (t t2 : String) (ctx ctx2 : CallContext)
    (ht : t = t2) (hctx : ctx = ctx2) :
    build_ai_input t ctx = build_ai_input t2 ctx2 ∧
    t.data <:+: (build_ai_input t ctx).data := by
  subst ht; subst hctx
  exact ⟨rfl, transcript_infix_prompt t ctx⟩

/-- Witness for C6 at a transcript made of the prompt's own triple-quote
delimiter and at the empty transcript. -/
theorem build_ai_input_deterministic_total_witness :
    (build_ai_input "\"\"\"" {} = build_ai_input "\"\"\"" {} ∧
      ("\"\"\"" : String).data <:+: (build_ai_input "\"\"\"" {}).data) ∧
    (build_ai_input "" {} = build_ai_input "" {} ∧
      ("" : String).data <:+: (build_ai_input "" {}).data) :=
  ⟨build_ai_input_deterministic_total "\"\"\"" "\"\"\"" {} {} rfl rfl,
   build_ai_input_deterministic_total "" "" {} {} rfl rfl⟩

/-- C7: the synthesizer's resolved path is the program directory joined
with the given filename, `call_response.mp3` when none is given, and is
independent of the synthesized text, so repeated runs resolve to the
same path. -/
theorem speak_with_openai_resolved_path (script_dir text1 text2 fn : String) :
    speak_with_openai script_dir text1 fn = script_dir ++ "/" ++ fn ∧
    speak_with_openai script_dir text1 = script_dir ++ "/" ++ "call_response.mp3" ∧
    speak_with_openai script_dir text1 = speak_with_openai script_dir text2 :=
  ⟨rfl, rfl, rfl⟩

/-- C8: when the caller identifier is absent, the prompt renders the
Caller ID field as the default text `Unknown`. -/
theorem caller_id_none_renders_unknown (t : String) (ctx : CallContext)
    (h : ctx.caller_id = none) :
    pyOrStr ctx.caller_id "Unknown" = "Unknown" ∧
    ("- Caller ID: Unknown\n- Call type: ").data <:+: (build_ai_input t ctx).data := by
  have hd : pyOrStr ctx.caller_id "Unknown" = "Unknown" := by rw [h]; rfl
  exact ⟨hd, caller_unknown_infix t ctx hd⟩

/-- Witness for C8 at a concrete transcript and context. -/
theorem caller_id_none_renders_unknown_witness :
    pyOrStr ({ caller_id := none } : CallContext).caller_id "Unknown" = "Unknown" ∧
    ("- Caller ID: Unknown\n- Call type: ").data
      <:+: (build_ai_input "hello" { caller_id := none }).data :=
  caller_id_none_renders_unknown "hello" { caller_id := none } rfl

/-- C9: within one screening invocation the context the pipeline uses is
exactly the one constructed from the call arguments (caller id, call
type, and the default age 79): no step alters its fields, and the prompt
is built from that unchanged context. -/
theorem screen_mock_call_context_unchanged (t : String) (cid : Option String)
    (ct s : String) :
    (screen_mock_call t cid ct s).context
      = { caller_id := cid, call_type := ct, user_age := 79 } ∧
    (screen_mock_call t cid ct s).prompt
      = build_ai_input t ((screen_mock_call t cid ct s).context) :=
  ⟨rfl, rfl⟩

/-- C10: a caller identifier that is present but empty also renders the
Caller ID field as `Unknown` — Python's falsy `or` cannot distinguish an
empty identifier from an absent one. -/
theorem caller_id_empty_renders_unknown (t : String) (ctx : CallContext)
    (h : ctx.caller_id = some "") :
    pyOrStr ctx.caller_id "Unknown" = "Unknown" ∧
    ("- Caller ID: Unknown\n- Call type: ").data <:+: (build_ai_input t ctx).data := by
  have hd : pyOrStr ctx.caller_id "Unknown" = "Unknown" := by rw [h]; rfl
  exact ⟨hd, caller_unknown_infix t ctx hd⟩

/-- Witness for C10 at a concrete transcript and context. -/
theorem caller_id_empty_renders_unknown_witness :
    pyOrStr ({ caller_id := some "" } : CallContext).caller_id "Unknown" = "Unknown" ∧
    ("- Caller ID: Unknown\n- Call type: ").data
      <:+: (build_ai_input "hello" { caller_id := some "" }).data :=
  caller_id_empty_renders_unknown "hello" { caller_id := some "" } rfl
